import Mathlib

/-!
Shallow embedding of the vcf portfolio-management server: the JWT
authentication middleware, the role / own-company authorization guard,
the login controller, the HTTP route table, the storage layer and the
nested company-update reconciler, translated from

  - src/server/middleware/auth.ts        (authenticateToken, requireRole,
                                          requireAdminOrOwnCompany)
  - src/server/routes.ts                 (registerRoutes)
  - src/server/controllers/companyController.ts (createCompany)
  - src/unnamed/part_004                 (DatabaseStorage)
  - src/unnamed/part_005                 (login)
  - src/unnamed/part_006                 (updateCompany, the nested
                                          reconciler variant)

Machine-level conventions: opaque ids are strings; fresh ids are drawn
from a counter carried by the database state; `createdAt`/`updatedAt`
timestamps are omitted (no property below mentions them); the zod
schemas from `@shared/schema` are external to the repository, so payload
shapes are modelled from the spec's data model (section 3) with the
required/optional split the controllers rely on.
-/

/-- A JavaScript value at the points the middleware compares request
fields against database columns: undefined, null, or a string.  The
distinction matters because src/server/middleware/auth.ts line 84
compares a nullable column (`founder.companyId`) against a possibly
undefined request field (`companyId`) with strict equality. -/
inductive JsVal where
  | undefined : JsVal
  | null : JsVal
  | str : String → JsVal
deriving DecidableEq

/-- JavaScript truthiness restricted to JsVal: undefined, null and the
empty string are falsy. -/
def jsFalsy : JsVal → Bool
  | .undefined => true
  | .null => true
  | .str s => s == ""

/-- JavaScript `a || b` restricted to JsVal: returns `b` whenever `a`
is falsy, otherwise `a`. -/
def jsOr (a b : JsVal) : JsVal := if jsFalsy a then b else a

/-- JavaScript strict equality (`===`) restricted to JsVal: values of
different kinds (undefined vs null vs string) are never strictly
equal. -/
def jsStrictEq : JsVal → JsVal → Bool
  | .undefined, .undefined => true
  | .null, .null => true
  | .str a, .str b => a == b
  | _, _ => false

/-- A founder row (spec section 3; table external to src, shape used by
src/unnamed/part_004 and the controllers).  `companyId` is a nullable
column, hence JsVal (null or str). -/
structure Founder where
  id : String
  firstName : String
  lastName : String
  phone : Option String
  linkedinUrl : Option String
  womanFounder : Bool
  companyId : JsVal
deriving DecidableEq

/-- The authenticated identity attached to the request by
authenticateToken (src/server/middleware/auth.ts lines 7-14, 36-41). -/
structure AuthUser where
  id : String
  email : String
  role : String
  founderId : Option String
deriving DecidableEq

/-- Outcome of a middleware guard: either the request proceeds to the
next handler, or it is denied with an HTTP status and a JSON message. -/
inductive GuardResult where
  | next : GuardResult
  | denied : Nat → String → GuardResult
deriving DecidableEq

/-- src/server/middleware/auth.ts lines 63-92 (requireAdminOrOwnCompany).
The founder lookup stands for `storage.getFounderById`; `paramsCompanyId`
is `req.params.companyId` (undefined on routes whose pattern does not
bind a `:companyId` segment) and `bodyCompanyId` is `req.body.companyId`
(client controlled). -/
def requireAdminOrOwnCompany (getFounderById : String → Option Founder)
    (user : Option AuthUser) (paramsCompanyId bodyCompanyId : JsVal) :
    GuardResult :=
  match user with
  | none => .denied 401 "Authentication required"
  | some u =>
    if u.role = "ADMIN" then .next
    else if u.role = "PORTFOLIO_COMPANY" then
      let companyId := jsOr paramsCompanyId bodyCompanyId
      match u.founderId with
      | none => .denied 403 "No associated founder"
      | some fid =>
        if fid = "" then .denied 403 "No associated founder"
        else
          match getFounderById fid with
          | none => .denied 403 "Access denied to this company"
          | some f =>
            if jsStrictEq f.companyId companyId then .next
            else .denied 403 "Access denied to this company"
    else .denied 403 "Insufficient permissions"

/-- src/server/middleware/auth.ts lines 49-61 (requireRole). -/
def requireRole (role : String) (user : Option AuthUser) : GuardResult :=
  match user with
  | none => .denied 401 "Authentication required"
  | some u =>
    if u.role ≠ role then .denied 403 "Insufficient permissions"
    else .next

/-- Split a character list at every occurrence of `sep`, like
JavaScript's `String.prototype.split` with a one-character separator
(adjacent separators yield empty segments; no separator yields one
segment). -/
def splitAux (sep : Char) : List Char → List Char → List (List Char)
  | [], seg => [seg.reverse]
  | c :: cs, seg =>
    if c = sep then seg.reverse :: splitAux sep cs []
    else splitAux sep cs (c :: seg)

/-- JavaScript `s.split(sep)` for a one-character separator. -/
def splitChar (sep : Char) (s : String) : List String :=
  (splitAux sep s.data []).map (fun seg => String.mk seg)

/-- Express route parameter names bound by a path pattern: the segments
that start with a colon, e.g. "/api/companies/:id" binds ["id"]. -/
def paramNames (pattern : String) : List String :=
  (splitAux '/' pattern.data []).filterMap
    (fun seg =>
      match seg with
      | ':' :: rest => some (String.mk rest)
      | _ => none)

/-- The value of `req.params.<name>` on a request matched by `pattern`
whose (single) bound segment carries `value`: the string if the pattern
binds `name`, JavaScript undefined otherwise.  Every parameterised route
in src/server/routes.ts binds exactly one segment. -/
def paramValue (pattern value name : String) : JsVal :=
  if name ∈ paramNames pattern then .str value else .undefined

/-- The decoded JWT payload signed at login (src/unnamed/part_005 lines
29-33): { id, email, role }. -/
structure TokenPayload where
  id : String
  email : String
  role : String
deriving DecidableEq

/-- A user row (spec section 3): email, password hash, role, optional
founder reference. -/
structure User where
  id : String
  email : String
  passwordHash : String
  role : String
  founderId : Option String
deriving DecidableEq

/-- Outcome of the authentication middleware: either reject with a
status and message, or attach the identity and call the next handler. -/
inductive AuthResult where
  | reject : Nat → String → AuthResult
  | accept : AuthUser → AuthResult
deriving DecidableEq

/-- Token extraction from src/server/middleware/auth.ts lines 21-26:
`authHeader && authHeader.split(" ")[1]` followed by the `!token`
falsiness test.  Returns none exactly when the 401 "Access token
required" branch fires: header absent, header empty, no second
space-separated part, or an empty second part. -/
def tokenOf : Option String → Option String
  | none => none
  | some h =>
    if h = "" then none
    else
      match (splitChar ' ' h).get? 1 with
      | none => none
      | some t => if t = "" then none else some t

/-- JavaScript `x || undefined` on an optional string: an empty string
is normalised to none (src/server/middleware/auth.ts line 40). -/
def normOpt : Option String → Option String
  | none => none
  | some s => if s = "" then none else some s

/-- src/server/middleware/auth.ts lines 16-47 (authenticateToken).
`verify` stands for `jwt.verify` (none when it throws, i.e. the
signature or expiry check fails); `getUserById` stands for
`storage.getUserById`.  The catch branch around `jwt.verify` returns
status 403, while the missing-header and unknown-user branches return
401. -/
def authenticateToken (verify : String → Option TokenPayload)
    (getUserById : String → Option User) (authHeader : Option String) :
    AuthResult :=
  match tokenOf authHeader with
  | none => .reject 401 "Access token required"
  | some t =>
    match verify t with
    | none => .reject 403 "Invalid token"
    | some decoded =>
      match getUserById decoded.id with
      | none => .reject 401 "Invalid token"
      | some u =>
        .accept { id := u.id, email := u.email, role := u.role,
                  founderId := normOpt u.founderId }

/-- Outcome of the login controller: an error response, or a signed
token (carrying id, email, role) plus the user summary. -/
inductive LoginResult where
  | failure : Nat → String → LoginResult
  | success : TokenPayload → LoginResult
deriving DecidableEq

/-- src/unnamed/part_005 lines 15-51 (login), after the zod parse of a
well-formed email and non-empty password.  `getUserByEmail` stands for
`storage.getUserByEmail` and `bcryptCompare` for `bcrypt.compare`.
Both failure branches produce the same 401 response. -/
def login (getUserByEmail : String → Option User)
    (bcryptCompare : String → String → Bool) (email password : String) :
    LoginResult :=
  match getUserByEmail email with
  | none => .failure 401 "Invalid credentials"
  | some u =>
    if bcryptCompare password u.passwordHash then
      .success { id := u.id, email := u.email, role := u.role }
    else
      .failure 401 "Invalid credentials"

/-- HTTP verbs Express can register; routes.ts never calls app.patch. -/
inductive HttpVerb where
  | get | post | put | patch | delete
deriving DecidableEq

/-- A middleware gate as composed in src/server/routes.ts. -/
inductive Gate where
  | authToken : Gate
  | roleRequired : String → Gate
  | adminOrOwn : Gate
deriving DecidableEq

/-- One registered route: verb, path pattern, middleware chain, handler
name. -/
structure Route where
  verb : HttpVerb
  pattern : String
  gates : List Gate
  handler : String
deriving DecidableEq

/-- src/server/routes.ts lines 34-74 (registerRoutes): the complete
route table, in registration order. -/
def registerRoutes : List Route :=
  [ ⟨.post, "/api/auth/login", [], "login"⟩,
    ⟨.post, "/api/auth/register", [.authToken, .roleRequired "ADMIN"], "register"⟩,
    ⟨.get, "/api/companies", [.authToken, .roleRequired "ADMIN"], "getAllCompanies"⟩,
    ⟨.get, "/api/companies/:id", [.authToken, .adminOrOwn], "getCompanyById"⟩,
    ⟨.post, "/api/companies", [.authToken, .roleRequired "ADMIN"], "createCompany"⟩,
    ⟨.put, "/api/companies/:id", [.authToken, .adminOrOwn], "updateCompany"⟩,
    ⟨.delete, "/api/companies/:id", [.authToken, .roleRequired "ADMIN"], "deleteCompany"⟩,
    ⟨.get, "/api/my-company", [.authToken, .roleRequired "PORTFOLIO_COMPANY"], "getMyCompany"⟩,
    ⟨.get, "/api/companies/:companyId/founder", [.authToken, .adminOrOwn], "getFounderByCompany"⟩,
    ⟨.put, "/api/founders/:id", [.authToken, .adminOrOwn], "updateFounder"⟩,
    ⟨.get, "/api/companies/:companyId/fundraising", [.authToken, .adminOrOwn], "getFundraisingByCompany"⟩,
    ⟨.post, "/api/companies/:companyId/fundraising", [.authToken, .adminOrOwn], "createFundraising"⟩,
    ⟨.put, "/api/fundraising/:id", [.authToken, .adminOrOwn], "updateFundraising"⟩,
    ⟨.delete, "/api/fundraising/:id", [.authToken, .adminOrOwn], "deleteFundraising"⟩,
    ⟨.get, "/api/companies/:companyId/revenue", [.authToken, .adminOrOwn], "getRevenueByCompany"⟩,
    ⟨.post, "/api/companies/:companyId/revenue", [.authToken, .adminOrOwn], "createRevenue"⟩,
    ⟨.put, "/api/revenue/:id", [.authToken, .adminOrOwn], "updateRevenue"⟩,
    ⟨.delete, "/api/revenue/:id", [.authToken, .adminOrOwn], "deleteRevenue"⟩,
    ⟨.get, "/api/brain-trust-mentors", [.authToken], "getAllBrainTrustMentors"⟩,
    ⟨.get, "/api/brain-trust-mentors/:id", [.authToken], "getBrainTrustMentorById"⟩,
    ⟨.post, "/api/brain-trust-mentors", [.authToken, .roleRequired "ADMIN"], "createBrainTrustMentor"⟩,
    ⟨.put, "/api/brain-trust-mentors/:id", [.authToken, .roleRequired "ADMIN"], "updateBrainTrustMentor"⟩,
    ⟨.delete, "/api/brain-trust-mentors/:id", [.authToken, .roleRequired "ADMIN"], "deleteBrainTrustMentor"⟩ ]

/-- A portfolio company row (spec section 3; shape used by
src/unnamed/part_004 and the controllers).  Representative field set:
the three fields the reconciler's gate tests (legalName, aka,
countryReg) plus further required and optional fields. -/
structure Company where
  id : String
  legalName : String
  aka : Option String
  countryReg : String
  countyOps : String
  website : Option String
  industryType : String
  vintageYear : Int
  teamSize : Option Int
deriving DecidableEq

/-- A fundraising-round row (spec section 3): belongs to exactly one
company. -/
structure Fundraising where
  id : String
  companyId : String
  roundYear : Int
  amount : Int
  roundType : String
  coInvestors : Option String
  notes : Option String
deriving DecidableEq

/-- A revenue-record row (spec section 3): belongs to exactly one
company. -/
structure Revenue where
  id : String
  companyId : String
  fiscalYear : Int
  arr : Option Int
  q1 : Option Int
  q2 : Option Int
  q3 : Option Int
  q4 : Option Int
  projectedRevenue : Option Int
  actualRevenue : Option Int
deriving DecidableEq

/-- An admin-snapshot row (spec section 3): belongs to exactly one
company; at most one per company is the invariant claimed by the spec. -/
structure AdminSnapshot where
  id : String
  companyId : String
  status : Option String
  investmentAmount : Option Int
  investmentYear : Option Int
  valuationAtInvestment : Option Int
  equityPercent : Option Int
deriving DecidableEq

/-- The relational store as the server sees it, plus a counter from
which fresh opaque row ids are drawn. -/
structure DB where
  companies : List Company
  founders : List Founder
  fundraisingRows : List Fundraising
  revenueRows : List Revenue
  snapshots : List AdminSnapshot
  nextId : Nat
deriving DecidableEq

/-- The empty store. -/
def emptyDB : DB := ⟨[], [], [], [], [], 0⟩

/-- Overwrite-on-presence used by every partial update: a field present
in the patch replaces the stored value, an absent field keeps it. -/
def patchOpt {α : Type} (p old : Option α) : Option α :=
  match p with
  | some v => some v
  | none => old

/-- The company fields of a PATCH/PUT body after
`insertPortfolioCompanySchema.partial().parse` (all optional). -/
structure CompanyFields where
  legalName : Option String
  aka : Option String
  countryReg : Option String
  countyOps : Option String
  website : Option String
  industryType : Option String
  vintageYear : Option Int
  teamSize : Option Int
deriving DecidableEq

/-- A company-fields patch with nothing present. -/
def noCompanyFields : CompanyFields :=
  ⟨none, none, none, none, none, none, none, none⟩

/-- The nested `founder` object of the reconciler payload after
`insertFounderSchema.partial().parse` (all optional; the partial schema
also accepts companyId). -/
structure FounderPatch where
  firstName : Option String
  lastName : Option String
  phone : Option String
  linkedinUrl : Option String
  womanFounder : Option Bool
  companyId : Option String
deriving DecidableEq

/-- One element of the `fundraising` array of the reconciler payload:
`insertFundraisingSchema.parse` succeeds, so the required fields are
present. -/
structure FundraisingInput where
  roundYear : Int
  amount : Int
  roundType : String
  coInvestors : Option String
  notes : Option String
deriving DecidableEq

/-- One element of the `revenue` array of the reconciler payload. -/
structure RevenueInput where
  fiscalYear : Int
  arr : Option Int
  q1 : Option Int
  q2 : Option Int
  q3 : Option Int
  q4 : Option Int
  projectedRevenue : Option Int
  actualRevenue : Option Int
deriving DecidableEq

/-- The nested `adminSnapshot` object of the reconciler payload; the
partial schema also accepts companyId (src/unnamed/part_006 line 122
parses the raw object with `insertAdminSnapshotSchema.partial()`). -/
structure SnapshotPatch where
  companyId : Option String
  status : Option String
  investmentAmount : Option Int
  investmentYear : Option Int
  valuationAtInvestment : Option Int
  equityPercent : Option Int
deriving DecidableEq

/-- The composite reconciler payload: any subset of top-level company
fields, a founder object, a fundraising array, a revenue array, an
admin-snapshot object (src/unnamed/part_006 lines 66-131). -/
structure Payload where
  company : CompanyFields
  founder : Option FounderPatch
  fundraising : Option (List FundraisingInput)
  revenue : Option (List RevenueInput)
  adminSnapshot : Option SnapshotPatch
deriving DecidableEq

/-- Truthiness of an optional string body field: present and non-empty. -/
def truthyS : Option String → Bool
  | none => false
  | some s => !(s == "")

/-- The gate at src/unnamed/part_006 line 72:
`updateData.legalName || updateData.aka || updateData.countryReg`. -/
def companyGate (p : CompanyFields) : Bool :=
  truthyS p.legalName || truthyS p.aka || truthyS p.countryReg

/-- Field-wise partial update of a company row (part_004 lines 144-151,
`updatePortfolioCompany`'s `set`). -/
def applyCompanyPatch (c : Company) (p : CompanyFields) : Company :=
  { c with
    legalName := p.legalName.getD c.legalName,
    aka := patchOpt p.aka c.aka,
    countryReg := p.countryReg.getD c.countryReg,
    countyOps := p.countyOps.getD c.countyOps,
    website := patchOpt p.website c.website,
    industryType := p.industryType.getD c.industryType,
    vintageYear := p.vintageYear.getD c.vintageYear,
    teamSize := patchOpt p.teamSize c.teamSize }

/-- Field-wise partial update of a founder row (part_004 lines 106-113,
`updateFounder`'s `set`; a companyId present in the patch reassigns the
founder). -/
def applyFounderPatch (f : Founder) (p : FounderPatch) : Founder :=
  { f with
    firstName := p.firstName.getD f.firstName,
    lastName := p.lastName.getD f.lastName,
    phone := patchOpt p.phone f.phone,
    linkedinUrl := patchOpt p.linkedinUrl f.linkedinUrl,
    womanFounder := p.womanFounder.getD f.womanFounder,
    companyId := match p.companyId with
      | some c => .str c
      | none => f.companyId }

/-- Field-wise partial update of an admin-snapshot row (part_004 lines
211-218, `updateAdminSnapshot`'s `set`; a companyId present in the
patch reassigns the snapshot). -/
def applySnapshotPatch (s : AdminSnapshot) (p : SnapshotPatch) :
    AdminSnapshot :=
  { s with
    companyId := p.companyId.getD s.companyId,
    status := patchOpt p.status s.status,
    investmentAmount := patchOpt p.investmentAmount s.investmentAmount,
    investmentYear := patchOpt p.investmentYear s.investmentYear,
    valuationAtInvestment :=
      patchOpt p.valuationAtInvestment s.valuationAtInvestment,
    equityPercent := patchOpt p.equityPercent s.equityPercent }

/-- part_004 lines 97-104 (getFoundersByCompanyId): all founder rows
whose companyId column equals the given id. -/
def getFoundersByCompanyId (db : DB) (companyId : String) : List Founder :=
  db.founders.filter (fun f => decide (f.companyId = JsVal.str companyId))

/-- part_004 lines 157-159 (getFundraisingByCompanyId). -/
def getFundraisingByCompanyId (db : DB) (companyId : String) :
    List Fundraising :=
  db.fundraisingRows.filter (fun f => decide (f.companyId = companyId))

/-- part_004 lines 179-181 (getRevenueByCompanyId). -/
def getRevenueByCompanyId (db : DB) (companyId : String) : List Revenue :=
  db.revenueRows.filter (fun r => decide (r.companyId = companyId))

/-- part_004 lines 201-204 (getAdminSnapshotByCompanyId): the first
snapshot row whose companyId matches, if any. -/
def getAdminSnapshotByCompanyId (db : DB) (companyId : String) :
    Option AdminSnapshot :=
  db.snapshots.find? (fun s => decide (s.companyId = companyId))

/-- A new fundraising row built from one array element, linked to the
company (src/unnamed/part_006 lines 98-103). -/
def mkFundraisingRow (n : Nat) (companyId : String) (r : FundraisingInput) :
    Fundraising :=
  { id := toString n, companyId := companyId, roundYear := r.roundYear,
    amount := r.amount, roundType := r.roundType,
    coInvestors := r.coInvestors, notes := r.notes }

/-- part_004 lines 161-164 (createFundraising): insert a fresh row. -/
def createFundraisingDB (db : DB) (companyId : String)
    (r : FundraisingInput) : DB :=
  { db with
    fundraisingRows :=
      db.fundraisingRows ++ [mkFundraisingRow db.nextId companyId r],
    nextId := db.nextId + 1 }

/-- A new revenue row built from one array element, linked to the
company (src/unnamed/part_006 lines 109-114). -/
def mkRevenueRow (n : Nat) (companyId : String) (r : RevenueInput) :
    Revenue :=
  { id := toString n, companyId := companyId, fiscalYear := r.fiscalYear,
    arr := r.arr, q1 := r.q1, q2 := r.q2, q3 := r.q3, q4 := r.q4,
    projectedRevenue := r.projectedRevenue,
    actualRevenue := r.actualRevenue }

/-- part_004 lines 183-186 (createCompanyRevenue): insert a fresh row. -/
def createRevenueDB (db : DB) (companyId : String) (r : RevenueInput) :
    DB :=
  { db with
    revenueRows := db.revenueRows ++ [mkRevenueRow db.nextId companyId r],
    nextId := db.nextId + 1 }

/-- A new admin-snapshot row built from the payload object with
companyId forced to the target company (src/unnamed/part_006 lines
125-129: `{ ...updateData.adminSnapshot, companyId: id }`). -/
def mkSnapshotRow (n : Nat) (companyId : String) (s : SnapshotPatch) :
    AdminSnapshot :=
  { id := toString n, companyId := companyId, status := s.status,
    investmentAmount := s.investmentAmount,
    investmentYear := s.investmentYear,
    valuationAtInvestment := s.valuationAtInvestment,
    equityPercent := s.equityPercent }

/-- Sub-step 1 of the reconciler (src/unnamed/part_006 lines 71-75):
the Company row is partially updated only when the body's legalName,
aka or countryReg is truthy; the applied patch then carries every
company field present in the body. -/
def companyStep (db : DB) (id : String) (p : Payload) : DB :=
  if companyGate p.company then
    { db with
      companies := db.companies.map
        (fun c => if c.id = id then applyCompanyPatch c p.company else c) }
  else db

/-- Sub-step 2 of the reconciler (src/unnamed/part_006 lines 77-92):
if a founder object is present, the first founder of the company is
partially updated, or a new founder is created linked to the company.
Returns none when the create branch's full parse fails (a required
name is missing), matching the thrown zod error. -/
def founderStep (db : DB) (id : String) (p : Payload) : Option DB :=
  match p.founder with
  | none => some db
  | some fp =>
    match getFoundersByCompanyId db id with
    | f0 :: _ =>
      some { db with
        founders := db.founders.map
          (fun f => if f.id = f0.id then applyFounderPatch f fp else f) }
    | [] =>
      match fp.firstName, fp.lastName with
      | some fn, some ln =>
        some { db with
          founders := db.founders ++
            [{ id := toString db.nextId, firstName := fn, lastName := ln,
               phone := fp.phone, linkedinUrl := fp.linkedinUrl,
               womanFounder := fp.womanFounder.getD false,
               companyId := .str id }],
          nextId := db.nextId + 1 }
      | _, _ => none

/-- The loop body of sub-step 3 (src/unnamed/part_006 lines 98-104):
each fundraising element is unconditionally inserted as a fresh row. -/
def insertFundraisingAll (db : DB) (id : String)
    (rows : List FundraisingInput) : DB :=
  rows.foldl (fun d r => createFundraisingDB d id r) db

/-- Sub-step 3 of the reconciler (src/unnamed/part_006 lines 95-105). -/
def fundraisingStep (db : DB) (id : String) (p : Payload) : DB :=
  match p.fundraising with
  | some rows => insertFundraisingAll db id rows
  | none => db

/-- The loop body of sub-step 4 (src/unnamed/part_006 lines 109-115). -/
def insertRevenueAll (db : DB) (id : String) (rows : List RevenueInput) :
    DB :=
  rows.foldl (fun d r => createRevenueDB d id r) db

/-- Sub-step 4 of the reconciler (src/unnamed/part_006 lines 108-116). -/
def revenueStep (db : DB) (id : String) (p : Payload) : DB :=
  match p.revenue with
  | some rows => insertRevenueAll db id rows
  | none => db

/-- Sub-step 5 of the reconciler (src/unnamed/part_006 lines 119-131):
if an admin-snapshot object is present, an existing snapshot of the
company is partially updated in place, otherwise a new one is created
with companyId forced to the target company. -/
def snapshotStep (db : DB) (id : String) (p : Payload) : DB :=
  match p.adminSnapshot with
  | none => db
  | some sp =>
    match getAdminSnapshotByCompanyId db id with
    | some ex =>
      { db with
        snapshots := db.snapshots.map
          (fun s => if s.id = ex.id then applySnapshotPatch s sp else s) }
    | none =>
      { db with
        snapshots := db.snapshots ++ [mkSnapshotRow db.nextId id sp],
        nextId := db.nextId + 1 }

/-- The nested-update reconciler, src/unnamed/part_006 lines 66-143
(updateCompany): the five sub-steps run in sequence with no transaction;
none signals a zod parse error thrown mid-sequence (only the founder
create branch can fail on the payload shapes modelled here). -/
def updateCompany (db : DB) (id : String) (p : Payload) : Option DB :=
  match founderStep (companyStep db id p) id p with
  | none => none
  | some db1 => some (snapshotStep (revenueStep (fundraisingStep db1 id p) id p) id p)

/-- The create-company payload after `createCompanySchema.parse`
(src/server/controllers/companyController.ts lines 7-9, 39): company
fields with the required ones present. -/
structure CompanyInsert where
  legalName : String
  aka : Option String
  countryReg : String
  countyOps : String
  website : Option String
  industryType : String
  vintageYear : Int
  teamSize : Option Int
deriving DecidableEq

/-- The nested founder of the create-company payload
(`insertFounderSchema`: names required, the rest optional). -/
structure FounderInsert where
  firstName : String
  lastName : String
  phone : Option String
  linkedinUrl : Option String
  womanFounder : Bool
deriving DecidableEq

/-- part_004 lines 139-142 (createPortfolioCompany): the inserted row. -/
def mkCompanyRow (n : Nat) (ci : CompanyInsert) : Company :=
  { id := toString n, legalName := ci.legalName, aka := ci.aka,
    countryReg := ci.countryReg, countyOps := ci.countyOps,
    website := ci.website, industryType := ci.industryType,
    vintageYear := ci.vintageYear, teamSize := ci.teamSize }

/-- part_004 lines 87-90 (createFounder) as used by createCompany with
`companyId` forced to the new company's id. -/
def mkFounderRow (n : Nat) (companyId : JsVal) (fi : FounderInsert) :
    Founder :=
  { id := toString n, firstName := fi.firstName, lastName := fi.lastName,
    phone := fi.phone, linkedinUrl := fi.linkedinUrl,
    womanFounder := fi.womanFounder, companyId := companyId }

/-- src/server/controllers/companyController.ts lines 37-58
(createCompany): create the company, then create the founder linked to
it; the 201 response carries both rows. -/
def createCompanyOp (db : DB) (ci : CompanyInsert) (fi : FounderInsert) :
    DB × Company × Founder :=
  let company := mkCompanyRow db.nextId ci
  let db1 : DB :=
    { db with companies := db.companies ++ [company],
              nextId := db.nextId + 1 }
  let founder := mkFounderRow db1.nextId (.str company.id) fi
  let db2 : DB :=
    { db1 with founders := db1.founders ++ [founder],
               nextId := db1.nextId + 1 }
  (db2, company, founder)

/-- The composite company view returned by the manual four-lookup join. -/
structure CompositeView where
  company : Company
  founder : Option Founder
  fundraising : List Fundraising
  revenue : List Revenue
  adminSnapshot : Option AdminSnapshot
deriving DecidableEq

/-- part_004 lines 119-137 (getPortfolioCompanyById): the company row,
its first founder (`founder[0] || undefined`), its fundraising and
revenue lists, and its snapshot, if the company exists. -/
def getPortfolioCompanyById (db : DB) (id : String) :
    Option CompositeView :=
  match db.companies.find? (fun c => decide (c.id = id)) with
  | none => none
  | some c =>
    some { company := c,
           founder := (getFoundersByCompanyId db id).head?,
           fundraising := getFundraisingByCompanyId db id,
           revenue := getRevenueByCompanyId db id,
           adminSnapshot := getAdminSnapshotByCompanyId db id }

/-- At most one admin snapshot per company, phrased over the snapshot
list: all pairwise companyIds are distinct. -/
def snapshotsOkB : List AdminSnapshot → Bool
  | [] => true
  | s :: rest =>
    rest.all (fun t => !(decide (t.companyId = s.companyId))) && snapshotsOkB rest

/-- The data of a fundraising row (everything but the opaque row id):
used to state which rows an operation appended. -/
structure FundraisingData where
  companyId : String
  roundYear : Int
  amount : Int
  roundType : String
  coInvestors : Option String
  notes : Option String
deriving DecidableEq

/-- Projection of a fundraising row to its data. -/
def fundraisingData (f : Fundraising) : FundraisingData :=
  ⟨f.companyId, f.roundYear, f.amount, f.roundType, f.coInvestors, f.notes⟩

/-- The data of the fundraising row the reconciler builds from one
array element for the given company. -/
def fundraisingInputData (companyId : String) (r : FundraisingInput) :
    FundraisingData :=
  ⟨companyId, r.roundYear, r.amount, r.roundType, r.coInvestors, r.notes⟩

/-- The data of a revenue row (everything but the opaque row id). -/
structure RevenueData where
  companyId : String
  fiscalYear : Int
  arr : Option Int
  q1 : Option Int
  q2 : Option Int
  q3 : Option Int
  q4 : Option Int
  projectedRevenue : Option Int
  actualRevenue : Option Int
deriving DecidableEq

/-- Projection of a revenue row to its data. -/
def revenueData (r : Revenue) : RevenueData :=
  ⟨r.companyId, r.fiscalYear, r.arr, r.q1, r.q2, r.q3, r.q4,
   r.projectedRevenue, r.actualRevenue⟩

/-- The data of the revenue row the reconciler builds from one array
element for the given company. -/
def revenueInputData (companyId : String) (r : RevenueInput) :
    RevenueData :=
  ⟨companyId, r.fiscalYear, r.arr, r.q1, r.q2, r.q3, r.q4,
   r.projectedRevenue, r.actualRevenue⟩

/-- The fundraising rows the loop of sub-step 3 inserts, with the ids
the counter hands out starting at `n`. -/
def mkFundraisingRows (n : Nat) (companyId : String) :
    List FundraisingInput → List Fundraising
  | [] => []
  | r :: rs => mkFundraisingRow n companyId r ::
      mkFundraisingRows (n + 1) companyId rs

/-- The revenue rows the loop of sub-step 4 inserts, with the ids the
counter hands out starting at `n`. -/
def mkRevenueRows (n : Nat) (companyId : String) :
    List RevenueInput → List Revenue
  | [] => []
  | r :: rs => mkRevenueRow n companyId r :: mkRevenueRows (n + 1) companyId rs

/-- True when the payload's adminSnapshot object, if present, does not
carry a companyId field (so the partial update cannot reassign the
snapshot to another company). -/
def snapPatchNoReassign (p : Payload) : Bool :=
  match p.adminSnapshot with
  | none => true
  | some sp => sp.companyId.isNone

/-- Example founder row linked to company "A". -/
def founderA : Founder :=
  ⟨"f1", "Ada", "Lovelace", none, none, false, JsVal.str "A"⟩

/-- Example founder store resolving exactly "f1". -/
def lookupF1 : String → Option Founder :=
  fun fid => if fid = "f1" then some founderA else none

/-- Example PORTFOLIO_COMPANY identity referencing founder "f1". -/
def pcUser : AuthUser :=
  ⟨"u1", "founder@a.example", "PORTFOLIO_COMPANY", some "f1"⟩

/-- Example ADMIN identity. -/
def adminUser : AuthUser := ⟨"u0", "admin@a.example", "ADMIN", none⟩

/-- Example founder row not yet assigned to any company (companyId is
the database null). -/
def founderNoCompany : Founder :=
  ⟨"f2", "Noa", "Unassigned", none, none, false, JsVal.null⟩

/-- Example founder store resolving exactly "f2". -/
def lookupF2 : String → Option Founder :=
  fun fid => if fid = "f2" then some founderNoCompany else none

/-- Example PORTFOLIO_COMPANY identity referencing the company-less
founder "f2". -/
def pcUserNoCompany : AuthUser :=
  ⟨"u2", "noa@a.example", "PORTFOLIO_COMPANY", some "f2"⟩

/-- Example snapshot row of company "X". -/
def snapX : AdminSnapshot := ⟨"s1", "X", some "ACTIVE", none, none, none, none⟩

/-- Example snapshot row of company "Y". -/
def snapY : AdminSnapshot := ⟨"s2", "Y", some "ACTIVE", none, none, none, none⟩

/-- Example store holding one snapshot each for companies "X" and "Y". -/
def dbTwoSnapshots : DB := ⟨[], [], [], [], [snapX, snapY], 10⟩

/-- Example store holding only company "X"'s snapshot. -/
def dbOneSnapshot : DB := ⟨[], [], [], [], [snapX], 10⟩

/-- A reconciler payload whose adminSnapshot object carries only a
companyId field (reassigning the patched snapshot to company "Y"). -/
def reassignPayload : Payload :=
  ⟨noCompanyFields, none, none, none,
   some ⟨some "Y", none, none, none, none, none⟩⟩

/-- A reconciler payload whose adminSnapshot object carries only a
status change. -/
def statusPayload : Payload :=
  ⟨noCompanyFields, none, none, none,
   some ⟨none, some "EXITED", none, none, none, none⟩⟩

/-- Example company row "c1" with team size 3. -/
def acmeCompany : Company :=
  ⟨"c1", "Acme", none, "US", "CA", none, "SAAS", 2024, some 3⟩

/-- Example store holding only the company "c1". -/
def dbAcme : DB := ⟨[acmeCompany], [], [], [], [], 5⟩

/-- A reconciler payload whose only company field is teamSize. -/
def teamSizeOnlyPayload : Payload :=
  ⟨⟨none, none, none, none, none, none, none, some 9⟩,
   none, none, none, none⟩

/-- A reconciler payload carrying a truthy legalName plus a teamSize. -/
def renamePayload : Payload :=
  ⟨⟨some "Acme Renamed", none, none, none, none, none, none, some 9⟩,
   none, none, none, none⟩

/-- Example fundraising array element. -/
def safeRound : FundraisingInput := ⟨2024, 500000, "SAFE", none, none⟩

/-- Example revenue array element. -/
def fy2024 : RevenueInput :=
  ⟨2024, some 100, none, none, none, none, some 120, some 110⟩

/-- A reconciler payload carrying one fundraising element and one
revenue element. -/
def roundsPayload : Payload :=
  ⟨noCompanyFields, none, some [safeRound], some [fy2024], none⟩

/-- The store after submitting roundsPayload for "c1" once. -/
def dbAcme1 : DB := (updateCompany dbAcme "c1" roundsPayload).getD emptyDB

/-- The store after submitting roundsPayload for "c1" twice. -/
def dbAcme2 : DB := (updateCompany dbAcme1 "c1" roundsPayload).getD emptyDB

/-- Example create-company payload (spec section 8's scenario). -/
def acmeInsert : CompanyInsert :=
  ⟨"Acme", none, "US", "CA", none, "SAAS", 2024, none⟩

/-- Example nested founder of the create-company payload. -/
def adaInsert : FounderInsert := ⟨"A", "B", none, none, false⟩

/-- Example user row for the login scenario. -/
def aliceUser : User := ⟨"u9", "alice@a.example", "hash9", "ADMIN", none⟩

/-- Example user store resolving exactly alice's email. -/
def storeAlice : String → Option User :=
  fun e => if e = "alice@a.example" then some aliceUser else none

/-- A bcrypt comparison that never matches (wrong password). -/
def compareNever : String → String → Bool := fun _ _ => false

/-- A jwt verification that always throws (bad signature or expired). -/
def verifyNone : String → Option TokenPayload := fun _ => none

/-- A user store with no users. -/
def usersNone : String → Option User := fun _ => none

/-- The store dbAcme after submitting renamePayload for "c1". -/
def dbAcmeRenamed : DB := (updateCompany dbAcme "c1" renamePayload).getD emptyDB

/-- The store dbTwoSnapshots after submitting reassignPayload for "X". -/
def dbTwoSnapshotsUpd : DB :=
  (updateCompany dbTwoSnapshots "X" reassignPayload).getD emptyDB

/-- The store dbOneSnapshot after submitting statusPayload for "X". -/
def dbOneSnapshotUpd : DB :=
  (updateCompany dbOneSnapshot "X" statusPayload).getD emptyDB

/-! ### Shared helper lemmas -/

/-- A map that leaves every element's id unchanged and a find? whose
predicate only looks at a component the map preserves commute. -/
theorem find?_map_of_pred_fix {α : Type} (g : α → α) (p : α → Bool)
    (hpg : ∀ x, p (g x) = p x) (l : List α) :
    (l.map g).find? p = (l.find? p).map g := by
  rw [List.find?_map]
  have hpq : (p ∘ g) = p := funext hpg
  rw [hpq]

/-- The fundraising insertion loop appends exactly the rows built from
the input elements, ids drawn consecutively from the counter. -/
theorem insertFundraisingAll_rows (id : String) :
    ∀ (rows : List FundraisingInput) (db : DB),
    (insertFundraisingAll db id rows).fundraisingRows
      = db.fundraisingRows ++ mkFundraisingRows db.nextId id rows := by
  intro rows
  induction rows with
  | nil => intro db; simp [insertFundraisingAll, mkFundraisingRows]
  | cons r rs ih =>
    intro db
    have h1 : insertFundraisingAll db id (r :: rs)
        = insertFundraisingAll (createFundraisingDB db id r) id rs := rfl
    rw [h1, ih (createFundraisingDB db id r)]
    simp [createFundraisingDB, mkFundraisingRows]

/-- The fundraising insertion loop touches only the fundraising list
and the id counter. -/
theorem insertFundraisingAll_frame (id : String) :
    ∀ (rows : List FundraisingInput) (db : DB),
    (insertFundraisingAll db id rows).companies = db.companies ∧
    (insertFundraisingAll db id rows).founders = db.founders ∧
    (insertFundraisingAll db id rows).revenueRows = db.revenueRows ∧
    (insertFundraisingAll db id rows).snapshots = db.snapshots := by
  intro rows
  induction rows with
  | nil => intro db; exact ⟨rfl, rfl, rfl, rfl⟩
  | cons r rs ih =>
    intro db
    have h1 : insertFundraisingAll db id (r :: rs)
        = insertFundraisingAll (createFundraisingDB db id r) id rs := rfl
    rw [h1]
    exact ih (createFundraisingDB db id r)

/-- The revenue insertion loop appends exactly the rows built from the
input elements, ids drawn consecutively from the counter. -/
theorem insertRevenueAll_rows (id : String) :
    ∀ (rows : List RevenueInput) (db : DB),
    (insertRevenueAll db id rows).revenueRows
      = db.revenueRows ++ mkRevenueRows db.nextId id rows := by
  intro rows
  induction rows with
  | nil => intro db; simp [insertRevenueAll, mkRevenueRows]
  | cons r rs ih =>
    intro db
    have h1 : insertRevenueAll db id (r :: rs)
        = insertRevenueAll (createRevenueDB db id r) id rs := rfl
    rw [h1, ih (createRevenueDB db id r)]
    simp [createRevenueDB, mkRevenueRows]

/-- The revenue insertion loop touches only the revenue list and the
id counter. -/
theorem insertRevenueAll_frame (id : String) :
    ∀ (rows : List RevenueInput) (db : DB),
    (insertRevenueAll db id rows).companies = db.companies ∧
    (insertRevenueAll db id rows).founders = db.founders ∧
    (insertRevenueAll db id rows).fundraisingRows = db.fundraisingRows ∧
    (insertRevenueAll db id rows).snapshots = db.snapshots := by
  intro rows
  induction rows with
  | nil => intro db; exact ⟨rfl, rfl, rfl, rfl⟩
  | cons r rs ih =>
    intro db
    have h1 : insertRevenueAll db id (r :: rs)
        = insertRevenueAll (createRevenueDB db id r) id rs := rfl
    rw [h1]
    exact ih (createRevenueDB db id r)

/-- The data of the rows built by the fundraising loop is the data of
the input elements, linked to the company, whatever ids are drawn. -/
theorem mkFundraisingRows_data (id : String) :
    ∀ (rows : List FundraisingInput) (n : Nat),
    (mkFundraisingRows n id rows).map fundraisingData
      = rows.map (fundraisingInputData id) := by
  intro rows
  induction rows with
  | nil => intro n; rfl
  | cons r rs ih =>
    intro n
    simp [mkFundraisingRows, ih (n + 1), fundraisingData, mkFundraisingRow,
      fundraisingInputData]

/-- The data of the rows built by the revenue loop is the data of the
input elements, linked to the company, whatever ids are drawn. -/
theorem mkRevenueRows_data (id : String) :
    ∀ (rows : List RevenueInput) (n : Nat),
    (mkRevenueRows n id rows).map revenueData
      = rows.map (revenueInputData id) := by
  intro rows
  induction rows with
  | nil => intro n; rfl
  | cons r rs ih =>
    intro n
    simp [mkRevenueRows, ih (n + 1), revenueData, mkRevenueRow,
      revenueInputData]

/-- Sub-step 1 touches only the companies list. -/
theorem companyStep_frame (db : DB) (id : String) (p : Payload) :
    (companyStep db id p).founders = db.founders ∧
    (companyStep db id p).fundraisingRows = db.fundraisingRows ∧
    (companyStep db id p).revenueRows = db.revenueRows ∧
    (companyStep db id p).snapshots = db.snapshots ∧
    (companyStep db id p).nextId = db.nextId := by
  unfold companyStep
  split <;> exact ⟨rfl, rfl, rfl, rfl, rfl⟩

/-- Sub-step 2, when it does not throw, touches only the founders list
and the id counter. -/
theorem founderStep_frame (db db2 : DB) (id : String) (p : Payload)
    (h : founderStep db id p = some db2) :
    db2.companies = db.companies ∧
    db2.fundraisingRows = db.fundraisingRows ∧
    db2.revenueRows = db.revenueRows ∧
    db2.snapshots = db.snapshots := by
  unfold founderStep at h
  split at h
  · cases h; exact ⟨rfl, rfl, rfl, rfl⟩
  · split at h
    · cases h; exact ⟨rfl, rfl, rfl, rfl⟩
    · split at h
      · cases h; exact ⟨rfl, rfl, rfl, rfl⟩
      · cases h

/-- Sub-step 3 touches only the fundraising list and the id counter. -/
theorem fundraisingStep_frame (db : DB) (id : String) (p : Payload) :
    (fundraisingStep db id p).companies = db.companies ∧
    (fundraisingStep db id p).founders = db.founders ∧
    (fundraisingStep db id p).revenueRows = db.revenueRows ∧
    (fundraisingStep db id p).snapshots = db.snapshots := by
  unfold fundraisingStep
  split
  · exact insertFundraisingAll_frame id _ db
  · exact ⟨rfl, rfl, rfl, rfl⟩

/-- Sub-step 4 touches only the revenue list and the id counter. -/
theorem revenueStep_frame (db : DB) (id : String) (p : Payload) :
    (revenueStep db id p).companies = db.companies ∧
    (revenueStep db id p).founders = db.founders ∧
    (revenueStep db id p).fundraisingRows = db.fundraisingRows ∧
    (revenueStep db id p).snapshots = db.snapshots := by
  unfold revenueStep
  split
  · exact insertRevenueAll_frame id _ db
  · exact ⟨rfl, rfl, rfl, rfl⟩

/-- Sub-step 5 touches only the snapshots list and the id counter. -/
theorem snapshotStep_frame (db : DB) (id : String) (p : Payload) :
    (snapshotStep db id p).companies = db.companies ∧
    (snapshotStep db id p).founders = db.founders ∧
    (snapshotStep db id p).fundraisingRows = db.fundraisingRows ∧
    (snapshotStep db id p).revenueRows = db.revenueRows := by
  unfold snapshotStep
  split
  · exact ⟨rfl, rfl, rfl, rfl⟩
  · split <;> exact ⟨rfl, rfl, rfl, rfl⟩

/-- A successful reconciler run decomposes into the five sub-steps. -/
theorem updateCompany_decomp (db db2 : DB) (id : String) (p : Payload)
    (h : updateCompany db id p = some db2) :
    ∃ dbf, founderStep (companyStep db id p) id p = some dbf ∧
      db2 = snapshotStep (revenueStep (fundraisingStep dbf id p) id p) id p := by
  unfold updateCompany at h
  split at h
  · cases h
  · next dbf hf => cases h; exact ⟨dbf, hf, rfl⟩

/-- C4: for every authenticated identity with role ADMIN and every
target company id (params, body and founder store arbitrary, so the
admin may have no founder link and the id may not exist), the
requireAdminOrOwnCompany guard admits unconditionally. -/
theorem guard_role_admin_always_next (lookup : String → Option Founder)
    (u : AuthUser) (params body : JsVal) (h : u.role = "ADMIN") :
    requireAdminOrOwnCompany lookup (some u) params body = .next := by
  simp only [requireAdminOrOwnCompany]
  simp [h]

/-- Witness for C4 at a concrete admin identity. -/
theorem guard_role_admin_always_next_app :
    adminUser.role = "ADMIN" ∧
    requireAdminOrOwnCompany lookupF1 (some adminUser) JsVal.undefined JsVal.undefined
      = GuardResult.next :=
  ⟨rfl, guard_role_admin_always_next lookupF1 adminUser JsVal.undefined JsVal.undefined rfl⟩

/-- C2 (counterexample): a PORTFOLIO_COMPANY founder with no company
(null companyId column) is admitted, not denied, when the client sends
body companyId null on a route binding only :id: params.companyId is
undefined, undefined || null is null, and null === null makes the
strict-inequality test at src/server/middleware/auth.ts line 84 false,
so the guard calls next().  This contradicts the claim that the guard
fails with Forbidden whenever the founder has no company. -/
theorem guard_unassigned_founder_null_body_next :
    pcUserNoCompany.role = "PORTFOLIO_COMPANY" ∧
    founderNoCompany.companyId = JsVal.null ∧
    paramValue "/api/companies/:id" "B" "companyId" = JsVal.undefined ∧
    requireAdminOrOwnCompany lookupF2 (some pcUserNoCompany)
        (paramValue "/api/companies/:id" "B" "companyId") JsVal.null
      = GuardResult.next := by decide

/-- C2 (amended): for a PORTFOLIO_COMPANY identity the guard admits
exactly when the founder reference is set and non-empty, the founder
record resolves, and its linked company id strictly equals the company
id the guard derives from the request (params.companyId falling back to
body.companyId, the id implied by the request path or body); every
other outcome is a 403 Forbidden denial.  In particular a founder with
no company is denied only when the derived company id is not itself
null, and a founder reference that no longer resolves is also
denied. -/
theorem guard_portfolio_company_characterization
    (lookup : String → Option Founder) (u : AuthUser) (params body : JsVal)
    (hrole : u.role = "PORTFOLIO_COMPANY") :
    (requireAdminOrOwnCompany lookup (some u) params body = .next ↔
      ∃ fid f, u.founderId = some fid ∧ fid ≠ "" ∧ lookup fid = some f ∧
        jsStrictEq f.companyId (jsOr params body) = true) ∧
    (requireAdminOrOwnCompany lookup (some u) params body ≠ .next →
      ∃ m, requireAdminOrOwnCompany lookup (some u) params body
          = .denied 403 m) := by
  simp only [requireAdminOrOwnCompany]
  rw [hrole]
  rw [if_neg (by decide)]
  rw [if_pos rfl]
  cases hfid : u.founderId with
  | none => simp
  | some fid =>
    by_cases hfe : fid = ""
    · subst hfe
      simp
    · cases hl : lookup fid with
      | none => simp [hfe, hl]
      | some f =>
        cases hs : jsStrictEq f.companyId (jsOr params body) with
        | true => simp [hfe, hl, hs]
        | false => simp [hfe, hl, hs]

/-- Witness for C2: a founder whose company matches the path parameter
is admitted. -/
theorem guard_portfolio_company_characterization_app :
    pcUser.role = "PORTFOLIO_COMPANY" ∧
    requireAdminOrOwnCompany lookupF1 (some pcUser) (JsVal.str "A") JsVal.undefined
      = GuardResult.next :=
  ⟨rfl,
   (guard_portfolio_company_characterization lookupF1 pcUser (JsVal.str "A")
      JsVal.undefined rfl).1.mpr
     ⟨"f1", founderA, rfl, by decide, rfl, by decide⟩⟩

/-- C1 (failing input): on a route whose pattern binds :id rather than
:companyId, params.companyId is undefined, so the guard compares the
founder's company against the client-controlled body.companyId; a
PORTFOLIO_COMPANY founder of company "A" requesting resource "B" while
sending body companyId "A" is admitted, although the claim requires a
403 denial regardless of any companyId field in the body. -/
theorem guard_body_spoof_crosses_company :
    paramValue "/api/companies/:id" "B" "companyId" = JsVal.undefined ∧
    founderA.companyId = JsVal.str "A" ∧ ("A" : String) ≠ "B" ∧
    pcUser.role = "PORTFOLIO_COMPANY" ∧
    requireAdminOrOwnCompany lookupF1 (some pcUser)
        (paramValue "/api/companies/:id" "B" "companyId") (JsVal.str "A")
      = GuardResult.next := by decide

/-- C3 (counterexample): a request whose token fails the signature or
expiry check is rejected with status 403, not the claimed 401 (the
catch branch in authenticateToken). -/
theorem auth_invalid_signature_gets_403 :
    authenticateToken verifyNone usersNone (some "Bearer deadbeef")
      = AuthResult.reject 403 "Invalid token" ∧ (403 : Nat) ≠ 401 := by decide

/-- C3 (amended): every request without a valid token is rejected and
the route handler is never invoked, with status 401 when the header is
absent or malformed and when the embedded user no longer resolves, but
status 403 when the signature or expiry check fails. -/
theorem auth_middleware_reject_statuses (verify : String → Option TokenPayload)
    (getUserById : String → Option User) (header : Option String) :
    (tokenOf header = none →
      authenticateToken verify getUserById header
        = .reject 401 "Access token required") ∧
    (∀ t, tokenOf header = some t → verify t = none →
      authenticateToken verify getUserById header
        = .reject 403 "Invalid token") ∧
    (∀ t d, tokenOf header = some t → verify t = some d →
      getUserById d.id = none →
      authenticateToken verify getUserById header
        = .reject 401 "Invalid token") := by
  refine ⟨?_, ?_, ?_⟩
  · intro h
    unfold authenticateToken
    rw [h]
  · intro t ht hv
    unfold authenticateToken
    rw [ht]
    simp only [hv]
  · intro t d ht hv hu
    unfold authenticateToken
    rw [ht]
    simp only [hv, hu]

/-- Witness for the amended C3 at an absent header. -/
theorem auth_middleware_reject_statuses_app :
    tokenOf none = none ∧
    authenticateToken verifyNone usersNone none
      = AuthResult.reject 401 "Access token required" :=
  ⟨rfl, (auth_middleware_reject_statuses verifyNone usersNone none).1 rfl⟩

/-- C10: login failure is uniform; whether the email is unknown or the
password does not match the stored hash, the response is exactly
status 401 with message "Invalid credentials", and no token is
issued. -/
theorem login_failure_uniform (store : String → Option User)
    (compare : String → String → Bool) (email password : String)
    (h : store email = none ∨
      ∃ u, store email = some u ∧ compare password u.passwordHash = false) :
    login store compare email password
      = .failure 401 "Invalid credentials" := by
  unfold login
  rcases h with h | ⟨u, hu, hc⟩
  · rw [h]
  · rw [hu]
    simp [hc]

/-- Witness for C10: unknown email and wrong password for a known email
produce the same 401 response. -/
theorem login_failure_uniform_app :
    (storeAlice "nobody@a.example" = none ∨
      ∃ u, storeAlice "nobody@a.example" = some u ∧
        compareNever "pw" u.passwordHash = false) ∧
    (storeAlice "alice@a.example" = none ∨
      ∃ u, storeAlice "alice@a.example" = some u ∧
        compareNever "wrong" u.passwordHash = false) ∧
    login storeAlice compareNever "nobody@a.example" "pw"
      = LoginResult.failure 401 "Invalid credentials" ∧
    login storeAlice compareNever "alice@a.example" "wrong"
      = LoginResult.failure 401 "Invalid credentials" :=
  ⟨Or.inl rfl, Or.inr ⟨aliceUser, rfl, rfl⟩,
   login_failure_uniform storeAlice compareNever "nobody@a.example" "pw"
     (Or.inl rfl),
   login_failure_uniform storeAlice compareNever "alice@a.example" "wrong"
     (Or.inr ⟨aliceUser, rfl, rfl⟩)⟩

/-- C8 (counterexample): the route table registers no PATCH handler at
/api/companies/:id, so the claimed PATCH route distinct from PUT does
not exist. -/
theorem no_patch_route_exists :
    ¬ ∃ r ∈ registerRoutes,
      r.verb = HttpVerb.patch ∧ r.pattern = "/api/companies/:id" := by
  decide

/-- C8 (amended): /api/companies/:id is served by a PUT route, gated
admin-or-own and dispatching to updateCompany; no PATCH route is
registered anywhere. -/
theorem put_route_dispatches_update :
    (∃ r ∈ registerRoutes,
      r.verb = HttpVerb.put ∧ r.pattern = "/api/companies/:id" ∧
      r.gates = [Gate.authToken, Gate.adminOrOwn] ∧
      r.handler = "updateCompany") ∧
    (¬ ∃ r ∈ registerRoutes, r.verb = HttpVerb.patch) := by
  decide

/-- One reconciler run with a fundraising array appends freshly built
rows and leaves the existing fundraising rows untouched. -/
theorem updateCompany_fundraising_append (db db2 : DB) (id : String)
    (p : Payload) (h : updateCompany db id p = some db2)
    (rows : List FundraisingInput) (hf : p.fundraising = some rows) :
    ∃ new, db2.fundraisingRows = db.fundraisingRows ++ new ∧
      new.map fundraisingData = rows.map (fundraisingInputData id) := by
  obtain ⟨dbf, hfs, hdb⟩ := updateCompany_decomp db db2 id p h
  subst hdb
  have hsnap := (snapshotStep_frame
    (revenueStep (fundraisingStep dbf id p) id p) id p).2.2.1
  have hrev := (revenueStep_frame (fundraisingStep dbf id p) id p).2.2.1
  have hfr : (fundraisingStep dbf id p).fundraisingRows
      = dbf.fundraisingRows ++ mkFundraisingRows dbf.nextId id rows := by
    unfold fundraisingStep
    rw [hf]
    exact insertFundraisingAll_rows id rows dbf
  have hfdb : dbf.fundraisingRows = db.fundraisingRows := by
    rw [(founderStep_frame (companyStep db id p) dbf id p hfs).2.1,
      (companyStep_frame db id p).2.1]
  exact ⟨mkFundraisingRows dbf.nextId id rows,
    by rw [hsnap, hrev, hfr, hfdb],
    mkFundraisingRows_data id rows dbf.nextId⟩

/-- One reconciler run with a revenue array appends freshly built rows
and leaves the existing revenue rows untouched. -/
theorem updateCompany_revenue_append (db db2 : DB) (id : String)
    (p : Payload) (h : updateCompany db id p = some db2)
    (rows : List RevenueInput) (hr : p.revenue = some rows) :
    ∃ new, db2.revenueRows = db.revenueRows ++ new ∧
      new.map revenueData = rows.map (revenueInputData id) := by
  obtain ⟨dbf, hfs, hdb⟩ := updateCompany_decomp db db2 id p h
  subst hdb
  have hsnap := (snapshotStep_frame
    (revenueStep (fundraisingStep dbf id p) id p) id p).2.2.2
  have hrv : (revenueStep (fundraisingStep dbf id p) id p).revenueRows
      = (fundraisingStep dbf id p).revenueRows
        ++ mkRevenueRows (fundraisingStep dbf id p).nextId id rows := by
    unfold revenueStep
    rw [hr]
    exact insertRevenueAll_rows id rows (fundraisingStep dbf id p)
  have hfrv : (fundraisingStep dbf id p).revenueRows = db.revenueRows := by
    rw [(fundraisingStep_frame dbf id p).2.2.1,
      (founderStep_frame (companyStep db id p) dbf id p hfs).2.2.1,
      (companyStep_frame db id p).2.2.1]
  exact ⟨mkRevenueRows (fundraisingStep dbf id p).nextId id rows,
    by rw [hsnap, hrv, hfrv],
    mkRevenueRows_data id rows (fundraisingStep dbf id p).nextId⟩

/-- C5: when the payload contains a fundraising or revenue array, every
element is unconditionally inserted as a new row linked to the company,
no existing row is updated or deleted, and submitting the same payload
twice appends the same row data twice (two duplicate rows per element,
not one updated row: the operation is not idempotent). -/
theorem reconciler_appends_fundraising_revenue (db db1 db2 : DB)
    (id : String) (p : Payload) (h1 : updateCompany db id p = some db1)
    (h2 : updateCompany db1 id p = some db2) :
    (∀ rows, p.fundraising = some rows →
      ∃ new1 new2,
        db1.fundraisingRows = db.fundraisingRows ++ new1 ∧
        db2.fundraisingRows = db.fundraisingRows ++ new1 ++ new2 ∧
        new1.map fundraisingData = rows.map (fundraisingInputData id) ∧
        new2.map fundraisingData = rows.map (fundraisingInputData id)) ∧
    (∀ rows, p.revenue = some rows →
      ∃ new1 new2,
        db1.revenueRows = db.revenueRows ++ new1 ∧
        db2.revenueRows = db.revenueRows ++ new1 ++ new2 ∧
        new1.map revenueData = rows.map (revenueInputData id) ∧
        new2.map revenueData = rows.map (revenueInputData id)) := by
  constructor
  · intro rows hf
    obtain ⟨n1, e1, d1⟩ := updateCompany_fundraising_append db db1 id p h1 rows hf
    obtain ⟨n2, e2, d2⟩ := updateCompany_fundraising_append db1 db2 id p h2 rows hf
    exact ⟨n1, n2, e1, by rw [e2, e1], d1, d2⟩
  · intro rows hr
    obtain ⟨n1, e1, d1⟩ := updateCompany_revenue_append db db1 id p h1 rows hr
    obtain ⟨n2, e2, d2⟩ := updateCompany_revenue_append db1 db2 id p h2 rows hr
    exact ⟨n1, n2, e1, by rw [e2, e1], d1, d2⟩

/-- Witness for C5: one SAFE round submitted twice for company "c1". -/
theorem reconciler_appends_fundraising_revenue_app :
    ∃ new1 new2,
      dbAcme1.fundraisingRows = dbAcme.fundraisingRows ++ new1 ∧
      dbAcme2.fundraisingRows = dbAcme.fundraisingRows ++ new1 ++ new2 ∧
      new1.map fundraisingData = [safeRound].map (fundraisingInputData "c1") ∧
      new2.map fundraisingData = [safeRound].map (fundraisingInputData "c1") :=
  (reconciler_appends_fundraising_revenue dbAcme dbAcme1 dbAcme2 "c1"
    roundsPayload rfl rfl).1 [safeRound] rfl

/-- C7 (amended): the Company row is partially updated only when the
payload carries a truthy legalName, aka or countryReg; when that gate
passes, the update applies every company field present in the payload
to the matched row. -/
theorem company_update_gate_characterization (db db2 : DB) (id : String)
    (p : Payload) (h : updateCompany db id p = some db2) :
    (companyGate p.company = false → db2.companies = db.companies) ∧
    (companyGate p.company = true →
      ∀ c, db.companies.find? (fun c0 => decide (c0.id = id)) = some c →
        db2.companies.find? (fun c0 => decide (c0.id = id))
          = some (applyCompanyPatch c p.company)) := by
  obtain ⟨dbf, hfs, hdb⟩ := updateCompany_decomp db db2 id p h
  subst hdb
  have hcs : (snapshotStep (revenueStep (fundraisingStep dbf id p) id p)
      id p).companies = (companyStep db id p).companies := by
    rw [(snapshotStep_frame _ id p).1, (revenueStep_frame _ id p).1,
      (fundraisingStep_frame _ id p).1,
      (founderStep_frame (companyStep db id p) dbf id p hfs).1]
  constructor
  · intro hg
    rw [hcs]
    unfold companyStep
    simp [hg]
  · intro hg c hc
    rw [hcs]
    unfold companyStep
    simp only [hg, if_true]
    have hpg : ∀ x : Company,
        (decide ((if x.id = id then applyCompanyPatch x p.company else x).id
          = id) : Bool) = decide (x.id = id) := by
      intro x
      by_cases hx : x.id = id <;> simp [hx, applyCompanyPatch]
    rw [find?_map_of_pred_fix _ _ hpg, hc]
    have hcid : c.id = id := by simpa using List.find?_some hc
    simp [hcid]

/-- C7 (counterexample): a payload whose only company field is teamSize
fails the legalName/aka/countryReg gate, so the Company row is not
updated at all, contradicting the claim that any company field present
triggers the partial update. -/
theorem company_update_skipped_without_gate :
    updateCompany dbAcme "c1" teamSizeOnlyPayload = some dbAcme ∧
    teamSizeOnlyPayload.company.teamSize = some 9 ∧
    companyGate teamSizeOnlyPayload.company = false ∧
    dbAcme.companies = [acmeCompany] ∧ acmeCompany.teamSize = some 3 := by
  decide

/-- Witness for the amended C7: a payload with a truthy legalName also
applies its teamSize to the row. -/
theorem company_update_gate_characterization_app :
    companyGate renamePayload.company = true ∧
    dbAcme.companies.find? (fun c0 => decide (c0.id = "c1"))
      = some acmeCompany ∧
    dbAcmeRenamed.companies.find? (fun c0 => decide (c0.id = "c1"))
      = some (applyCompanyPatch acmeCompany renamePayload.company) :=
  ⟨rfl, rfl,
   (company_update_gate_characterization dbAcme dbAcmeRenamed "c1"
      renamePayload rfl).2 rfl acmeCompany rfl⟩

/-- A companyId-preserving rewrite of every snapshot row preserves the
at-most-one-snapshot-per-company invariant. -/
theorem snapshotsOkB_map_preserve (g : AdminSnapshot → AdminSnapshot)
    (hg : ∀ s, (g s).companyId = s.companyId) :
    ∀ l : List AdminSnapshot, snapshotsOkB (l.map g) = snapshotsOkB l := by
  intro l
  induction l with
  | nil => rfl
  | cons s rest ih =>
    have hfun : ((fun t : AdminSnapshot => !decide (t.companyId = s.companyId)) ∘ g)
        = (fun t : AdminSnapshot => !decide (t.companyId = s.companyId)) := by
      funext t
      simp [Function.comp, hg]
    simp [snapshotsOkB, List.all_map, hfun, hg, ih]

/-- Appending a snapshot row for a company that has none preserves the
at-most-one-snapshot-per-company invariant. -/
theorem snapshotsOkB_append_one (x : AdminSnapshot) :
    ∀ l : List AdminSnapshot, snapshotsOkB l = true →
    (∀ t ∈ l, t.companyId ≠ x.companyId) →
    snapshotsOkB (l ++ [x]) = true := by
  intro l
  induction l with
  | nil => intro _ _; simp [snapshotsOkB]
  | cons s rest ih =>
    intro hok hne
    simp only [snapshotsOkB, Bool.and_eq_true] at hok
    have hrest := ih hok.2 (fun t ht => hne t (List.mem_cons_of_mem s ht))
    have hsx : s.companyId ≠ x.companyId := hne s (List.mem_cons_self s rest)
    simp only [List.cons_append, snapshotsOkB, Bool.and_eq_true]
    refine ⟨?_, hrest⟩
    have hxs : ¬ x.companyId = s.companyId := fun h => hsx h.symm
    simp [List.all_append, hok.1, hxs]

/-- C6 (amended): provided the payload's adminSnapshot does not carry a
companyId field, the reconciler preserves at most one AdminSnapshot per
company: an existing snapshot of the company is patched in place with
its id stable, and a new row is created only when none exists. -/
theorem snapshot_upsert_preserves_invariant (db db2 : DB) (id : String)
    (p : Payload) (hp : snapPatchNoReassign p = true)
    (h : updateCompany db id p = some db2)
    (hok : snapshotsOkB db.snapshots = true) :
    snapshotsOkB db2.snapshots = true ∧
    (∀ s, getAdminSnapshotByCompanyId db id = some s →
      ∃ t, getAdminSnapshotByCompanyId db2 id = some t ∧ t.id = s.id) ∧
    (∀ sp, p.adminSnapshot = some sp →
      getAdminSnapshotByCompanyId db id = none →
      ∃ t, getAdminSnapshotByCompanyId db2 id = some t) := by
  obtain ⟨dbf, hfs, hdb⟩ := updateCompany_decomp db db2 id p h
  have hsr : (revenueStep (fundraisingStep dbf id p) id p).snapshots
      = db.snapshots := by
    rw [(revenueStep_frame _ id p).2.2.2, (fundraisingStep_frame _ id p).2.2.2,
      (founderStep_frame (companyStep db id p) dbf id p hfs).2.2.2,
      (companyStep_frame db id p).2.2.2.1]
  set dbr := revenueStep (fundraisingStep dbf id p) id p with hdbr
  have hga : getAdminSnapshotByCompanyId dbr id
      = getAdminSnapshotByCompanyId db id := by
    unfold getAdminSnapshotByCompanyId
    rw [hsr]
  cases hps : p.adminSnapshot with
  | none =>
    have hid : db2 = dbr := by
      rw [hdb]
      unfold snapshotStep
      rw [hps]
    refine ⟨?_, ?_, ?_⟩
    · rw [hid]
      show snapshotsOkB dbr.snapshots = true
      rw [hsr]
      exact hok
    · intro s hs
      refine ⟨s, ?_, rfl⟩
      rw [hid, hga]
      exact hs
    · intro sp hsp _
      exact Option.noConfusion hsp
  | some sp =>
    have hspc : sp.companyId = none := by
      unfold snapPatchNoReassign at hp
      rw [hps] at hp
      simpa [Option.isNone_iff_eq_none] using hp
    cases hex : getAdminSnapshotByCompanyId db id with
    | some ex =>
      have hstep : db2 = { dbr with
          snapshots := dbr.snapshots.map
            (fun s => if s.id = ex.id then applySnapshotPatch s sp else s) } := by
        rw [hdb]
        unfold snapshotStep
        rw [hps]
        rw [hga, hex]
      have hgc : ∀ s, ((fun s => if s.id = ex.id then applySnapshotPatch s sp
          else s) s).companyId = s.companyId := by
        intro s
        by_cases hs : s.id = ex.id <;> simp [hs, applySnapshotPatch, hspc]
      have hgi : ∀ s, ((fun s => if s.id = ex.id then applySnapshotPatch s sp
          else s) s).id = s.id := by
        intro s
        by_cases hs : s.id = ex.id <;> simp [hs, applySnapshotPatch]
      have hfind : dbr.snapshots.find? (fun t => decide (t.companyId = id))
          = some ex := by
        have hx := hga.trans hex
        unfold getAdminSnapshotByCompanyId at hx
        exact hx
      refine ⟨?_, ?_, ?_⟩
      · rw [hstep]
        show snapshotsOkB (dbr.snapshots.map _) = true
        rw [snapshotsOkB_map_preserve _ hgc, hsr]
        exact hok
      · intro s hs
        obtain rfl : ex = s := Option.some.inj hs
        refine ⟨(fun s => if s.id = ex.id then applySnapshotPatch s sp else s) ex,
          ?_, hgi ex⟩
        rw [hstep]
        unfold getAdminSnapshotByCompanyId
        show (dbr.snapshots.map _).find?
            (fun t : AdminSnapshot => decide (t.companyId = id))
          = some _
        have hpg : ∀ x : AdminSnapshot,
            (decide (((fun s => if s.id = ex.id then applySnapshotPatch s sp
              else s) x).companyId = id) : Bool)
            = decide (x.companyId = id) := by
          intro x
          rw [hgc]
        rw [find?_map_of_pred_fix _ _ hpg, hfind]
        rfl
      · intro sp2 hsp2 hnone
        exact Option.noConfusion hnone
    | none =>
      have hstep : db2 = { dbr with
          snapshots := dbr.snapshots ++ [mkSnapshotRow dbr.nextId id sp],
          nextId := dbr.nextId + 1 } := by
        rw [hdb]
        unfold snapshotStep
        rw [hps]
        rw [hga, hex]
      have hnf : dbr.snapshots.find? (fun t => decide (t.companyId = id))
          = none := by
        have hx := hga.trans hex
        unfold getAdminSnapshotByCompanyId at hx
        exact hx
      refine ⟨?_, ?_, ?_⟩
      · rw [hstep]
        show snapshotsOkB (dbr.snapshots ++ [mkSnapshotRow dbr.nextId id sp])
          = true
        apply snapshotsOkB_append_one
        · rw [hsr]
          exact hok
        · intro t ht
          have hnt := List.find?_eq_none.mp hnf t ht
          simpa [mkSnapshotRow] using hnt
      · intro s hs
        exact Option.noConfusion hs
      · intro sp2 hsp2 _
        refine ⟨mkSnapshotRow dbr.nextId id sp, ?_⟩
        rw [hstep]
        unfold getAdminSnapshotByCompanyId
        show (dbr.snapshots ++ [mkSnapshotRow dbr.nextId id sp]).find?
          (fun t : AdminSnapshot => decide (t.companyId = id)) = some _
        rw [List.find?_append, hnf]
        simp [mkSnapshotRow]

/-- C6 (counterexample): a payload whose adminSnapshot carries a
companyId reassigns company "X"'s snapshot to company "Y", which
already has one, so a single reconciler run breaks the
at-most-one-snapshot-per-company invariant the claim says is
preserved. -/
theorem snapshot_reassign_breaks_invariant :
    snapshotsOkB dbTwoSnapshots.snapshots = true ∧
    updateCompany dbTwoSnapshots "X" reassignPayload = some dbTwoSnapshotsUpd ∧
    snapshotsOkB dbTwoSnapshotsUpd.snapshots = false := by
  decide

/-- Witness for the amended C6: a status-only snapshot patch keeps the
invariant and the row id. -/
theorem snapshot_upsert_preserves_invariant_app :
    snapPatchNoReassign statusPayload = true ∧
    snapshotsOkB dbOneSnapshot.snapshots = true ∧
    snapshotsOkB dbOneSnapshotUpd.snapshots = true ∧
    (∃ t, getAdminSnapshotByCompanyId dbOneSnapshotUpd "X" = some t ∧
      t.id = snapX.id) :=
  have hmain := snapshot_upsert_preserves_invariant dbOneSnapshot
    dbOneSnapshotUpd "X" statusPayload rfl rfl rfl
  ⟨rfl, rfl, hmain.1, hmain.2.1 snapX rfl⟩

/-- C9: createCompany creates the company, then the founder with
companyId equal to the new company's id, and the composite read of the
new company returns that founder with exactly the submitted field
values (fresh-id hypotheses: no existing company or founder already
uses the id the counter will hand out). -/
theorem create_company_round_trip (db : DB) (ci : CompanyInsert)
    (fi : FounderInsert)
    (hc : ∀ c ∈ db.companies, c.id ≠ toString db.nextId)
    (hf : ∀ f ∈ db.founders, f.companyId ≠ JsVal.str (toString db.nextId)) :
    ∀ db2 company founder, createCompanyOp db ci fi = (db2, company, founder) →
      founder.companyId = JsVal.str company.id ∧
      ∃ v, getPortfolioCompanyById db2 company.id = some v ∧
        v.founder = some founder ∧
        founder.firstName = fi.firstName ∧
        founder.lastName = fi.lastName ∧
        founder.phone = fi.phone ∧
        founder.linkedinUrl = fi.linkedinUrl ∧
        founder.womanFounder = fi.womanFounder := by
  intro db2 company founder heq
  have heq2 : (db2, company, founder)
      = ({ db with
            companies := db.companies ++ [mkCompanyRow db.nextId ci],
            founders := db.founders
              ++ [mkFounderRow (db.nextId + 1)
                    (JsVal.str (toString db.nextId)) fi],
            nextId := db.nextId + 1 + 1 }, mkCompanyRow db.nextId ci,
          mkFounderRow (db.nextId + 1) (JsVal.str (toString db.nextId)) fi) :=
    heq.symm
  injection heq2 with hdb2 hrest
  injection hrest with hcomp hfound
  subst hcomp
  subst hfound
  have hcompanies : db2.companies
      = db.companies ++ [mkCompanyRow db.nextId ci] := by
    rw [hdb2]
  have hfounders : db2.founders
      = db.founders
        ++ [mkFounderRow (db.nextId + 1) (JsVal.str (toString db.nextId)) fi] := by
    rw [hdb2]
  refine ⟨rfl, ?_⟩
  have hnone : db.companies.find?
      (fun c => decide (c.id = (mkCompanyRow db.nextId ci).id)) = none := by
    apply List.find?_eq_none.mpr
    intro c hcm
    simpa [mkCompanyRow] using hc c hcm
  have hfindc : (db.companies ++ [mkCompanyRow db.nextId ci]).find?
      (fun c => decide (c.id = (mkCompanyRow db.nextId ci).id))
      = some (mkCompanyRow db.nextId ci) := by
    rw [List.find?_append, hnone]
    simp [mkCompanyRow]
  have hnil : db.founders.filter
      (fun f => decide (f.companyId
        = JsVal.str (mkCompanyRow db.nextId ci).id)) = [] := by
    apply List.filter_eq_nil_iff.mpr
    intro f hfm
    simpa [mkCompanyRow] using hf f hfm
  have hfilter : (db.founders
      ++ [mkFounderRow (db.nextId + 1) (JsVal.str (toString db.nextId)) fi]).filter
        (fun f => decide (f.companyId
          = JsVal.str (mkCompanyRow db.nextId ci).id))
      = [mkFounderRow (db.nextId + 1) (JsVal.str (toString db.nextId)) fi] := by
    rw [List.filter_append, hnil]
    simp [mkFounderRow, mkCompanyRow]
  refine ⟨{ company := mkCompanyRow db.nextId ci,
            founder := (getFoundersByCompanyId db2
              (mkCompanyRow db.nextId ci).id).head?,
            fundraising := getFundraisingByCompanyId db2
              (mkCompanyRow db.nextId ci).id,
            revenue := getRevenueByCompanyId db2
              (mkCompanyRow db.nextId ci).id,
            adminSnapshot := getAdminSnapshotByCompanyId db2
              (mkCompanyRow db.nextId ci).id },
          ?_, ?_, rfl, rfl, rfl, rfl, rfl⟩
  · unfold getPortfolioCompanyById
    rw [hcompanies, hfindc]
  · show (getFoundersByCompanyId db2 (mkCompanyRow db.nextId ci).id).head?
      = some (mkFounderRow (db.nextId + 1) (JsVal.str (toString db.nextId)) fi)
    unfold getFoundersByCompanyId
    rw [hfounders, hfilter]
    rfl

/-- Witness for C9: the spec section 8 scenario on an empty store. -/
theorem create_company_round_trip_app :
    (∀ c ∈ emptyDB.companies, c.id ≠ toString emptyDB.nextId) ∧
    (∀ f ∈ emptyDB.founders,
      f.companyId ≠ JsVal.str (toString emptyDB.nextId)) ∧
    ((mkFounderRow 1 (JsVal.str "0") adaInsert).companyId
        = JsVal.str (mkCompanyRow 0 acmeInsert).id ∧
     ∃ v, getPortfolioCompanyById
          ⟨[mkCompanyRow 0 acmeInsert],
           [mkFounderRow 1 (JsVal.str "0") adaInsert], [], [], [], 2⟩
          (mkCompanyRow 0 acmeInsert).id = some v ∧
        v.founder = some (mkFounderRow 1 (JsVal.str "0") adaInsert) ∧
        (mkFounderRow 1 (JsVal.str "0") adaInsert).firstName
          = adaInsert.firstName ∧
        (mkFounderRow 1 (JsVal.str "0") adaInsert).lastName
          = adaInsert.lastName ∧
        (mkFounderRow 1 (JsVal.str "0") adaInsert).phone = adaInsert.phone ∧
        (mkFounderRow 1 (JsVal.str "0") adaInsert).linkedinUrl
          = adaInsert.linkedinUrl ∧
        (mkFounderRow 1 (JsVal.str "0") adaInsert).womanFounder
          = adaInsert.womanFounder) :=
  ⟨by decide, by decide,
   create_company_round_trip emptyDB acmeInsert adaInsert (by decide)
     (by decide)
     ⟨[mkCompanyRow 0 acmeInsert],
      [mkFounderRow 1 (JsVal.str "0") adaInsert], [], [], [], 2⟩
     (mkCompanyRow 0 acmeInsert)
     (mkFounderRow 1 (JsVal.str "0") adaInsert) rfl⟩
